import Mathlib

/-!
Verification of the outfit-suggestion generation and validation pipeline of a
wardrobe-management application (source: `src/server/routes.ts`).

The TypeScript source is shallowly embedded: every function of the pipeline
becomes a total, executable Lean definition mirroring the source line by line.
JavaScript numbers that hold temperatures or confidences are modelled as `Int`;
identifiers and counts as `Nat`; absent (undefined/null) values as `Option`;
JavaScript `Set<string>` objects, which the source mutates in place, are passed
and returned explicitly as duplicate-free `List String` values.
-/

/-! ## String helpers

JavaScript `String.prototype.includes` (substring test) and the default
`Array.prototype.sort` (which compares elements as strings) are modelled
from first principles on `List Char`. -/

/-- Boolean test that the first character list is an initial segment of the second. -/
def charListPre : List Char → List Char → Bool
  | [], _ => true
  | _ :: _, [] => false
  | a :: as, b :: bs => a == b && charListPre as bs

/-- Boolean test that `pat` occurs contiguously inside the second list. -/
def charListSub (pat : List Char) : List Char → Bool
  | [] => pat.isEmpty
  | c :: rest => charListPre pat (c :: rest) || charListSub pat rest

/-- ASCII lower-casing, modelling JavaScript `toLowerCase()` on the ASCII
strings this code base works with. (`String.toLower` itself does not reduce
inside the kernel, so the character list is mapped directly.) -/
def strToLower (t : String) : String :=
  String.mk (t.toList.map Char.toLower)

/-- Models JavaScript `s.includes(pat)`: substring containment. -/
def strContains (s pat : String) : Bool :=
  charListSub pat.toList s.toList

/-- Lexicographic comparison of character lists, the order JavaScript's default
`Array.prototype.sort` applies after converting elements to strings. -/
def charListLe : List Char → List Char → Bool
  | [], _ => true
  | _ :: _, [] => false
  | a :: as, b :: bs => if a < b then true else if b < a then false else charListLe as bs

/-- String comparison used by the JavaScript default sort. -/
def strLe (a b : String) : Bool :=
  charListLe a.toList b.toList

/-- Insert a string into a list sorted by `strLe`. -/
def insertSorted (x : String) : List String → List String
  | [] => [x]
  | y :: ys => if strLe x y then x :: y :: ys else y :: insertSorted x ys

/-- Insertion sort by `strLe`. Since `strLe` is a total order and equal keys are
identical strings, this yields the same list as any other sorting algorithm,
in particular JavaScript's `Array.prototype.sort`. -/
def sortStrings (l : List String) : List String :=
  l.foldl (fun acc x => insertSorted x acc) []

/-- Models the combination key `itemIds.sort().join(',')` used throughout the
source for duplicate suppression: the ids rendered in decimal, sorted by the
JavaScript default (string) order, joined with commas. -/
def comboKey (ids : List Nat) : String :=
  String.intercalate "," (sortStrings (ids.map (fun n => toString n)))

/-- Models the JavaScript idiom `x || d` for a possibly-absent number `x`:
`undefined`, `null` and `0` are falsy, so they yield the default. -/
def jsNumOr (c : Option Int) (d : Int) : Int :=
  match c with
  | none => d
  | some v => if v == 0 then d else v

/-- Models the JavaScript idiom `s || d` for a possibly-absent string `s`:
`undefined`, `null` and the empty string are falsy. -/
def jsStrOr (s : Option String) (d : String) : String :=
  match s with
  | none => d
  | some v => if v == "" then d else v

/-! ## Data model (shared/schema.ts) -/

/-- A clothing item as stored by the application (`clothingItems` table plus the
`subcategory` property the validators read, absent on unanalysed items). -/
structure ClothingItem where
  id : Nat
  name : String
  category : String
  subcategory : Option String
  style : Option String
  colors : List String
  warmthLevel : Option Int
  weatherSuitability : Option (List String)
  aiAnalysis : Option String
deriving Repr, DecidableEq

/-- A weather snapshot (`weatherData` table). -/
structure WeatherData where
  temperature : Int
  condition : String
  humidity : Int
  windSpeed : Int
deriving Repr, DecidableEq

/-- The parsed `preferences` JSON of a user profile, as read by the scorer. -/
structure StylePreferences where
  favoriteColors : Option (List String)
  avoidColors : Option (List String)
deriving Repr, DecidableEq

/-- An outfit candidate as produced by the AI composer or the fallback
generator (the loosely-typed JSON objects flowing through the pipeline). -/
structure RawOutfit where
  name : String
  occasion : Option String
  item_ids : List Nat
  confidence : Option Int
  description : Option String
  styling_tips : Option String
  weather : Option String
deriving Repr, DecidableEq

/-! ## Structural validators (routes.ts lines 503-654) -/

/-- Resolution of an id list against a wardrobe:
`userItems.filter(item => itemIds.includes(item.id))`. Unresolved ids simply
contribute nothing. -/
def selectedItemsOf (itemIds : List Nat) (userItems : List ClothingItem) : List ClothingItem :=
  userItems.filter (fun item => itemIds.contains item.id)

/-- Number of selected items in a category, the value `categoryCount[c]`
computed by `validateOutfitCombination`. -/
def categoryCount (sel : List ClothingItem) (c : String) : Nat :=
  (sel.filter (fun item => item.category == c)).length

/-- RULE 1 duplicate caps of `validateOutfitCombination`: up to 3 accessories,
up to 2 shoes, only 1 of any other category. The source iterates over the
distinct categories present; checking once per occurrence is equivalent. -/
def duplicateCapsOk (sel : List ClothingItem) : Bool :=
  (sel.map (fun item => item.category)).all (fun c =>
    if c == "accessories" then decide (categoryCount sel c ≤ 3)
    else if c == "shoes" then decide (categoryCount sel c ≤ 2)
    else decide (categoryCount sel c ≤ 1))

/-- RULE 2 of `validateOutfitCombination`: the ultra-flexible outfit structure
check (`coreOutfit || versatileOutfit || minimalOutfit`). -/
def outfitStructureOk (sel : List ClothingItem) : Bool :=
  let hasTop := decide (0 < categoryCount sel "tops")
  let hasBottom := decide (0 < categoryCount sel "bottoms")
  let hasDress := decide (0 < categoryCount sel "dresses")
  let hasOuterwear := decide (0 < categoryCount sel "outerwear")
  let coreOutfit := hasDress || (hasTop && hasBottom)
  let versatileOutfit := (hasTop && hasOuterwear) || (hasBottom && hasOuterwear) ||
    decide (3 ≤ sel.length)
  let minimalOutfit := decide (2 ≤ sel.length)
  coreOutfit || versatileOutfit || minimalOutfit

/-- The configured extreme colour clashes of RULE 3. -/
def extremeClashes : List (String × String) :=
  [("neon orange", "hot pink"),
   ("bright lime", "hot magenta"),
   ("fluorescent yellow", "electric purple")]

/-- The lower-cased colour set of the selection, with duplicates removed in
first-occurrence order (`Array.from(new Set(allColors))`). -/
def uniqueColorsOf (sel : List ClothingItem) : List String :=
  (sel.flatMap (fun item => item.colors.map (fun c => strToLower c))).eraseDups

/-- RULE 3 of `validateOutfitCombination`: no extreme clash pair is present
(via substring matching) and at most 8 distinct colours. -/
def colorValidationOk (sel : List ClothingItem) : Bool :=
  let uniqueColors := uniqueColorsOf sel
  extremeClashes.all (fun p =>
    !(uniqueColors.any (fun c => strContains c p.1) &&
      uniqueColors.any (fun c => strContains c p.2))) &&
  decide (uniqueColors.length ≤ 8)

/-- RULE 4 of `validateOutfitCombination`: reject swimwear together with a
winter coat, detected by substrings of the item names. -/
def categoryConflictOk (sel : List ClothingItem) : Bool :=
  let hasSwimwear := sel.any (fun item =>
    strContains (strToLower item.name) "bikini" ||
    strContains (strToLower item.name) "swimsuit")
  let hasWinterCoat := sel.any (fun item =>
    strContains (strToLower item.name) "winter coat" ||
    strContains (strToLower item.name) "parka")
  !(hasSwimwear && hasWinterCoat)

/-- The ultra-flexible fashion stylist validator (routes.ts lines 568-654).
The source returns `false` at the first failing rule and `true` at the end;
since every rule is a pure test this is the conjunction of the rules. -/
def validateOutfitCombination (itemIds : List Nat) (userItems : List ClothingItem) : Bool :=
  let sel := selectedItemsOf itemIds userItems
  decide (0 < sel.length) &&
  decide (2 ≤ sel.length) &&
  duplicateCapsOk sel &&
  outfitStructureOk sel &&
  colorValidationOk sel &&
  categoryConflictOk sel

/-- Cold-accessory detection of the mandatory validator:
`item.subcategory?.includes('glove' | 'scarf' | 'hat' | 'beanie')`;
an absent subcategory is falsy. -/
def isColdAccessorySub (item : ClothingItem) : Bool :=
  match item.subcategory with
  | none => false
  | some s =>
    strContains s "glove" || strContains s "scarf" ||
    strContains s "hat" || strContains s "beanie"

/-- The mandatory outfit structure validator (routes.ts lines 504-565), the
strict variant used for AI-composed outfits. -/
def validateMandatoryOutfitStructure (itemIds : List Nat) (userItems : List ClothingItem)
    (temperature : Int) : Bool :=
  let sel := selectedItemsOf itemIds userItems
  if sel.length < 3 then false
  else if categoryCount sel "bottoms" == 0 then false
  else if categoryCount sel "tops" == 0 then false
  else if categoryCount sel "shoes" == 0 then false
  else if decide (temperature < 14) &&
      decide (0 < (userItems.filter (fun item => item.category == "outerwear")).length) &&
      categoryCount sel "outerwear" == 0 then false
  else if decide (temperature < 10) &&
      decide (0 < (userItems.filter (fun item =>
        item.category == "accessories" && isColdAccessorySub item)).length) &&
      ((sel.filter (fun item => item.category == "accessories")).filter
        isColdAccessorySub).length == 0 then false
  else true

/-- The id-existence filter of the advanced pipeline (routes.ts lines
1009-1012): `outfit.item_ids.every(id => userItems.some(item => item.id === id))`. -/
def advancedIdsValid (itemIds : List Nat) (userItems : List ClothingItem) : Bool :=
  itemIds.all (fun i => userItems.any (fun item => item.id == i))


/-! ## Combinatorial fallback generator (routes.ts lines 1594-1644) -/

/-- Models `colors[0]` interpolated into a template string: JavaScript renders
a missing element as the text `undefined`. -/
def colorHead (colors : List String) : String :=
  colors.headD "undefined"

/-- Models `Set.add` on the process-wide suggestion history: inserting an
already-present key leaves the set unchanged. -/
def addKey (hist : List String) (k : String) : List String :=
  if hist.contains k then hist else hist ++ [k]

/-- The nested top x bottom loop of `generateBasicOutfitCombinations`.
The source breaks out of both loops right after the push that reaches 3
outfits, which is the same as stopping before the next pairing whenever 3
outfits have accumulated. -/
def processPairs (occasion : Option String) :
    List (ClothingItem × ClothingItem) → List String → List RawOutfit →
    List RawOutfit × List String
  | [], hist, acc => (acc, hist)
  | (top, bottom) :: rest, hist, acc =>
    if 3 ≤ acc.length then (acc, hist)
    else
      let k := comboKey [top.id, bottom.id]
      if hist.contains k then processPairs occasion rest hist acc
      else
        let outfit : RawOutfit :=
          { name := colorHead top.colors ++ " " ++ top.name ++ " with " ++
              colorHead bottom.colors ++ " " ++ bottom.name
            occasion := some (jsStrOr occasion "casual")
            item_ids := [top.id, bottom.id]
            confidence := some 75
            description := some ("Classic combination of " ++ top.name ++ " and " ++ bottom.name)
            styling_tips := some "Keep accessories simple for a clean look"
            weather := some "Suitable for most conditions" }
        processPairs occasion rest (addKey hist k) (acc ++ [outfit])

/-- The dress loop of `generateBasicOutfitCombinations`: up to the first two
dresses, one single-item outfit each, no cap inside the loop. The key
`[dress.id].join(',')` equals `comboKey [dress.id]`. -/
def processDresses :
    List ClothingItem → List String → List RawOutfit → List RawOutfit × List String
  | [], hist, acc => (acc, hist)
  | dress :: rest, hist, acc =>
    let k := comboKey [dress.id]
    if hist.contains k then processDresses rest hist acc
    else
      let outfit : RawOutfit :=
        { name := "Elegant " ++ colorHead dress.colors ++ " Dress"
          occasion := some "formal"
          item_ids := [dress.id]
          confidence := some 80
          description := some ("Beautiful " ++ dress.name ++ " for special occasions")
          styling_tips := some "Add accessories to personalize the look"
          weather := some "Perfect for mild weather" }
      processDresses rest (addKey hist k) (acc ++ [outfit])

/-- The combinatorial fallback generator (routes.ts lines 1594-1644). The
mutated `previousSuggestions` set is returned alongside the outfit list. -/
def generateBasicOutfitCombinations (userItems : List ClothingItem)
    (previousSuggestions : List String) (occasion : Option String) :
    List RawOutfit × List String :=
  let tops := userItems.filter (fun item => item.category == "tops")
  let bottoms := userItems.filter (fun item => item.category == "bottoms")
  let dresses := userItems.filter (fun item => item.category == "dresses")
  let pairs := (tops.take 2).flatMap (fun top =>
    (bottoms.take 2).map (fun bottom => (top, bottom)))
  let pairsOut := processPairs occasion pairs previousSuggestions []
  let dressesOut := processDresses (dresses.take 2) pairsOut.2 pairsOut.1
  (dressesOut.1.take 3, dressesOut.2)

/-- Models `generateAdvancedOutfitSuggestions` when the rate limiter or a
missing API key short-circuits it (routes.ts lines 771-785): it returns
`generateBasicOutfitCombinations(userItems, new Set(), occasion)`. The
per-owner `userSuggestionHistory` (the `history` argument here) is neither
consulted nor updated; the freshly created empty set is discarded. -/
def advancedRateLimitedCall (userItems : List ClothingItem) (occasion : Option String)
    (history : List String) : List RawOutfit × List String :=
  ((generateBasicOutfitCombinations userItems [] occasion).1, history)

/-! ## Duplicate-name resolution (routes.ts lines 657-702) -/

/-- The template pool `styleTemplates[occasion] || styleTemplates.casual`. -/
def styleTemplatesFor (occasion : String) : List String :=
  if occasion == "business" then
    ["Professional Edge", "Corporate Style", "Business Sharp", "Office Ready",
     "Executive Look", "Workplace Chic", "Business Sophisticated", "Professional Polish"]
  else if occasion == "formal" then
    ["Evening Elegance", "Formal Finesse", "Sophisticated Style", "Refined Look",
     "Dress-up Ready", "Special Occasion", "Polished Perfection", "Formal Grace"]
  else if occasion == "date_night" then
    ["Romantic Charm", "Date Night Allure", "Evening Romance", "Captivating Style",
     "Dinner Date Ready", "Night Out Chic", "Romantic Elegance", "Date Perfect"]
  else if occasion == "sporty" then
    ["Athletic Edge", "Sporty Chic", "Active Style", "Fitness Ready",
     "Athleisure Look", "Workout Vibes", "Sport Luxe", "Active Comfort"]
  else
    ["Weekend Comfort", "Laid-Back Style", "Casual Chic", "Effortless Look",
     "Relaxed Elegance", "Everyday Style", "Comfortable Cool", "Easy Going"]

/-- Name regeneration on collision (`generateUniqueStyleName`). `Math.random()`
in the terminal fallback is abstracted as the `rand` argument (the value
`Math.floor(Math.random() * 100)`); that branch registers nothing in
`usedNames`, exactly as the source. Returns the name and the updated set. -/
def generateUniqueStyleName (occasion : String) (items : List ClothingItem)
    (usedNames : List String) (rand : Nat) : String × List String :=
  match (styleTemplatesFor occasion).find? (fun t => !usedNames.contains t) with
  | some t => (t, addKey usedNames t)
  | none =>
    match items.find? (fun item => item.category == "tops" || item.category == "dresses"),
        items.find? (fun item => item.category == "bottoms") with
    | some topItem, some bottomItem =>
      let n := colorHead topItem.colors ++ " & " ++ colorHead bottomItem.colors ++ " " ++ occasion
      (n, addKey usedNames n)
    | _, _ => ("Stylish " ++ occasion ++ " " ++ toString rand, usedNames)

/-! ## Confidence scoring (routes.ts lines 1464-1526) -/

/-- Cold-layering detection: an outerwear item, or a business-styled top, or a
top whose raw `aiAnalysis` JSON mentions `blazer`. -/
def hasOuterwearForCold (sel : List ClothingItem) : Bool :=
  sel.any (fun item =>
    item.category == "outerwear" ||
    (item.category == "tops" &&
      (item.style == some "business" ||
        (match item.aiAnalysis with
         | none => false
         | some a => strContains a "blazer"))))

/-- Per-item weather appropriateness: items without a `weatherSuitability`
field pass outright; otherwise the warmth level (when truthy) must fit the
temperature and rainy weather demands the `rain` tag. `condition` arrives
already lower-cased. -/
def weatherAppropriateItem (temp : Int) (condition : String) (item : ClothingItem) : Bool :=
  match item.weatherSuitability with
  | none => true
  | some ws =>
    !(decide (temp < 5) && (match item.warmthLevel with
        | none => false
        | some w => !(w == 0) && decide (w < 2))) &&
    !(decide (25 < temp) && (match item.warmthLevel with
        | none => false
        | some w => !(w == 0) && decide (2 < w))) &&
    !((condition == "rainy") && !(ws.contains "rain"))

/-- The `temp < 10` layering adjustment of the scorer, updating confidence and
appending to the styling tips. -/
def coldLayerAdjust (sel : List ClothingItem) (temp : Int) (o : RawOutfit) : RawOutfit :=
  if temp < 10 then
    if hasOuterwearForCold sel then
      { o with confidence := some (min 100 (jsNumOr o.confidence 80 + 10))
               styling_tips := some (jsStrOr o.styling_tips "" ++
                 " Perfect layering for cold weather - remove outer layer when indoors.") }
    else
      { o with confidence := some (max 40 (jsNumOr o.confidence 80 - 30))
               styling_tips := some (jsStrOr o.styling_tips "" ++
                 " Add a jacket or coat for cold weather protection.") }
  else o

/-- The general weather-appropriateness adjustment of the scorer. -/
def weatherAppropriatenessAdjust (sel : List ClothingItem) (w : WeatherData)
    (o : RawOutfit) : RawOutfit :=
  if sel.all (weatherAppropriateItem w.temperature (strToLower w.condition)) then
    { o with confidence := some (min 100 (jsNumOr o.confidence 80 + 5)) }
  else
    { o with confidence := some (max 50 (jsNumOr o.confidence 80 - 20)) }

/-- The favourite-colour boost of the scorer:
`preferences.favoriteColors?.some(...)` (case-insensitive substring match
against the selection's colours) adds 5, capped at 100. -/
def favColorAdjust (sel : List ClothingItem) (p : StylePreferences) (o : RawOutfit) : RawOutfit :=
  let outfitColors := sel.flatMap (fun item => item.colors)
  let favHit := match p.favoriteColors with
    | none => false
    | some favs => favs.any (fun c =>
        outfitColors.any (fun oc => strContains (strToLower oc) (strToLower c)))
  if favHit then
    { o with confidence := some (min 100 (jsNumOr o.confidence 80 + 5)) }
  else o

/-- The avoided-colour penalty of the scorer: subtracts 10, floored at 60,
reading the confidence the favourite-colour step may have written. -/
def avoidColorAdjust (sel : List ClothingItem) (p : StylePreferences) (o : RawOutfit) : RawOutfit :=
  let outfitColors := sel.flatMap (fun item => item.colors)
  let avoidHit := match p.avoidColors with
    | none => false
    | some avs => avs.any (fun c =>
        outfitColors.any (fun oc => strContains (strToLower oc) (strToLower c)))
  if avoidHit then
    { o with confidence := some (max 60 (jsNumOr o.confidence 80 - 10)) }
  else o

/-- The user-preference colour adjustments of the scorer (favourite colours
then avoided colours), applied only when a preferences object is present. -/
def preferencesAdjust (sel : List ClothingItem) (prefs : Option StylePreferences)
    (o : RawOutfit) : RawOutfit :=
  match prefs with
  | none => o
  | some p => avoidColorAdjust sel p (favColorAdjust sel p o)

/-- The complete per-outfit scoring applied in the map phase: weather
adjustments (only when a snapshot is present) then preference adjustments. -/
def scoreOutfit (sel : List ClothingItem) (weather : Option WeatherData)
    (prefs : Option StylePreferences) (o : RawOutfit) : RawOutfit :=
  let o1 := match weather with
    | none => o
    | some w => weatherAppropriatenessAdjust sel w (coldLayerAdjust sel w.temperature o)
  preferencesAdjust sel prefs o1

/-! ## The suggestion batch pipeline (routes.ts lines 1430-1574) -/

/-- The filter pass of the batch (routes.ts lines 1432-1450): at least two ids,
combination not in the history **as it stood before the batch**, and the
flexible validator passes. The source's `item_ids.sort().join(',')` sorts the
id array in place as a side effect; that reordering is not tracked here since
every later read of the ids (key computation via `comboKey`, id resolution via
`includes`) is order-insensitive. -/
def passesBatchFilter (hist0 : List String) (userItems : List ClothingItem)
    (o : RawOutfit) : Bool :=
  decide (2 ≤ o.item_ids.length) &&
  !(hist0.contains (comboKey o.item_ids)) &&
  validateOutfitCombination o.item_ids userItems

/-- The map pass of the batch (routes.ts lines 1451-1528): records each
combination into the history, resolves name collisions, scores. Returns the
transformed outfits with the final history and used-name set. -/
def mapPhase (userItems : List ClothingItem) (weather : Option WeatherData)
    (prefs : Option StylePreferences) (rand : Nat) :
    List RawOutfit → List String → List String →
    List RawOutfit × List String × List String
  | [], hist, used => ([], hist, used)
  | o :: rest, hist, used =>
    let hist1 := addKey hist (comboKey o.item_ids)
    let sel := selectedItemsOf o.item_ids userItems
    let renamed :=
      if used.contains o.name then
        let r := generateUniqueStyleName (jsStrOr o.occasion "casual") sel used rand
        ({ o with name := r.1 }, r.2)
      else (o, addKey used o.name)
    let o2 := scoreOutfit sel weather prefs renamed.1
    let restOut := mapPhase userItems weather prefs rand rest hist1 renamed.2
    (o2 :: restOut.1, restOut.2.1, restOut.2.2)

/-- The sort key `(outfit.confidence || 0)`. -/
def confKey (o : RawOutfit) : Int :=
  jsNumOr o.confidence 0

/-- Insertion into a list sorted by `confKey` descending, placing the new
element after existing elements of equal key (stability). -/
def insertByConfDesc (x : RawOutfit) : List RawOutfit → List RawOutfit
  | [] => [x]
  | y :: ys => if confKey y < confKey x then x :: y :: ys else y :: insertByConfDesc x ys

/-- Models `.sort((a, b) => (b.confidence || 0) - (a.confidence || 0))`.
`Array.prototype.sort` is stable, and a stable sort's output is uniquely
determined by the keys, so stable insertion sort reproduces it exactly. -/
def sortByConfDesc (l : List RawOutfit) : List RawOutfit :=
  l.foldl (fun acc x => insertByConfDesc x acc) []

/-- The batch pipeline applied to the composer's outfits: the filter pass runs
to completion over the whole array before the map pass records any
combination, then the scored outfits are sorted by confidence and capped at 5.
Returns the batch output together with the updated per-owner history. -/
def processSuggestionBatch (outfits : List RawOutfit) (userItems : List ClothingItem)
    (hist0 : List String) (weather : Option WeatherData)
    (prefs : Option StylePreferences) (rand : Nat) : List RawOutfit × List String :=
  let passed := outfits.filter (passesBatchFilter hist0 userItems)
  let mapped := mapPhase userItems weather prefs rand passed hist0 []
  ((sortByConfDesc mapped.1).take 5, mapped.2.1)

/-- The inline fallback loop of `generateOutfitSuggestions` (routes.ts lines
1541-1569): top x bottom pairings, capped at 2, same break placement as the
basic generator. -/
def processInlinePairs :
    List (ClothingItem × ClothingItem) → List String → List RawOutfit →
    List RawOutfit × List String
  | [], hist, acc => (acc, hist)
  | (top, bottom) :: rest, hist, acc =>
    if 2 ≤ acc.length then (acc, hist)
    else
      let k := comboKey [top.id, bottom.id]
      if hist.contains k then processInlinePairs rest hist acc
      else
        let outfit : RawOutfit :=
          { name := colorHead top.colors ++ " & " ++ colorHead bottom.colors ++ " Casual Look"
            occasion := some "casual"
            item_ids := [top.id, bottom.id]
            confidence := some 75
            description := some ("Simple combination of " ++ top.name ++ " with " ++ bottom.name ++ ".")
            styling_tips := some "Keep accessories minimal for a clean look."
            weather := some "Suitable for most weather conditions" }
        processInlinePairs rest (addKey hist k) (acc ++ [outfit])

/-- The suggestion entry point `generateOutfitSuggestions` (routes.ts lines
1037-1574), with the asynchronous model call and JSON parsing abstracted into
the `aiOutfits` argument (the parsed `outfits` array of the response).
Wardrobes of fewer than 2 items return an empty list outright; an empty batch
output falls back to the inline pairing loop. -/
def generateOutfitSuggestions (userItems : List ClothingItem) (hist0 : List String)
    (aiOutfits : List RawOutfit) (weather : Option WeatherData)
    (prefs : Option StylePreferences) (rand : Nat) : List RawOutfit × List String :=
  if userItems.length < 2 then ([], hist0)
  else
    let batch := processSuggestionBatch aiOutfits userItems hist0 weather prefs rand
    if batch.1.length == 0 && decide (2 ≤ userItems.length) then
      let tops := userItems.filter (fun item => item.category == "tops")
      let bottoms := userItems.filter (fun item => item.category == "bottoms")
      let pairs := (tops.take 2).flatMap (fun top =>
        (bottoms.take 2).map (fun bottom => (top, bottom)))
      processInlinePairs pairs batch.2 []
    else batch

/-! ## Weather filtering inside the AI path (routes.ts lines 1127-1257) -/

/-- An item as it reaches the weather filter: after `wardrobeAnalysis`, with
whatever `weatherSuitability` value that stage produced. -/
structure AnalyzedItem where
  id : Nat
  weatherSuitability : Option (List String)
deriving Repr, DecidableEq

/-- The per-item test of `weatherSuitableItems` (routes.ts lines 1246-1257):
an absent `weatherSuitability` passes outright; otherwise cold demands the
`cold` tag, heat the `sun` tag and rain the `rain` tag. -/
def weatherItemKept (w : WeatherData) (item : AnalyzedItem) : Bool :=
  match item.weatherSuitability with
  | none => true
  | some ws =>
    !(decide (w.temperature < 5) && !(ws.contains "cold")) &&
    !(decide (25 < w.temperature) && !(ws.contains "sun")) &&
    !((strToLower w.condition == "rainy") && !(ws.contains "rain"))

/-- The weather filter `weatherSuitableItems`: a pass-through without a
snapshot, otherwise the per-item test. -/
def weatherSuitableItems (weather : Option WeatherData)
    (occasionFilteredItems : List AnalyzedItem) : List AnalyzedItem :=
  match weather with
  | none => occasionFilteredItems
  | some w => occasionFilteredItems.filter (weatherItemKept w)

/-- The `weatherSuitability` value `wardrobeAnalysis` (routes.ts line 1134)
assigns: `analysis.weather_suitability || ['mild']`. An absent field defaults
to `['mild']`; a present array (even an empty one, which is truthy) is kept. -/
def analyzedWeatherSuitability (raw : Option (List String)) : List String :=
  match raw with
  | none => ["mild"]
  | some l => l

/-- An item as emitted by `wardrobeAnalysis`: the `weatherSuitability` field is
always set (to the analysis value or the `['mild']` default). -/
def wardrobeAnalysisItem (id : Nat) (raw : Option (List String)) : AnalyzedItem :=
  { id := id, weatherSuitability := some (analyzedWeatherSuitability raw) }

/-! ## Rate limiter (routes.ts lines 44-67) -/

/-- The sliding window of the limiter, in milliseconds. -/
def rlTimeWindow : Nat := 60000

/-- The request cap inside one window. -/
def rlMaxRequests : Nat := 14

/-- One call of `RateLimiter.canMakeRequest` at time `now`: drop requests older
than the window, grant when fewer than the cap remain. Returns the new
`requests` array and whether the request was granted. -/
def canMakeRequest (requests : List Nat) (now : Nat) : List Nat × Bool :=
  let kept := requests.filter (fun t => now - t < rlTimeWindow)
  if kept.length < rlMaxRequests then (kept ++ [now], true) else (kept, false)

/-- One step of a call sequence: the state is the `requests` array paired with
the times of all granted calls so far. -/
def rlStep (p : List Nat × List Nat) (now : Nat) : List Nat × List Nat :=
  let r := canMakeRequest p.1 now
  if r.2 then (r.1, p.2 ++ [now]) else (r.1, p.2)

/-- The times at which calls of the sequence `times` were granted, starting
from a fresh limiter. -/
def grantedTimes (times : List Nat) : List Nat :=
  (times.foldl rlStep ([], [])).2

/-! ## Concrete wardrobes used by counterexamples and witnesses -/

/-- A minimal item: only the fields the claims exercise are populated. -/
def mkItem (id : Nat) (name category : String) (colors : List String) : ClothingItem :=
  { id := id, name := name, category := category, subcategory := none, style := none,
    colors := colors, warmthLevel := none, weatherSuitability := none, aiAnalysis := none }

/-- One top and one bottom. -/
def topBottomWardrobe : List ClothingItem :=
  [mkItem 1 "White Tee" "tops" ["white"], mkItem 2 "Blue Jeans" "bottoms" ["blue"]]

/-- Two pairs of shoes and nothing else. -/
def twoShoesWardrobe : List ClothingItem :=
  [mkItem 1 "Black Sneakers" "shoes" ["black"], mkItem 2 "White Boots" "shoes" ["white"]]

/-- A single dress and nothing else. -/
def loneDressWardrobe : List ClothingItem :=
  [mkItem 1 "Red Dress" "dresses" ["red"]]

/-- Two tops (ids 1, 2) and two bottoms (ids 3, 4). -/
def quadWardrobe : List ClothingItem :=
  [mkItem 1 "Tee" "tops" ["white"], mkItem 2 "Polo" "tops" ["red"],
   mkItem 3 "Jeans" "bottoms" ["blue"], mkItem 4 "Chinos" "bottoms" ["tan"]]


/-- A cold, clear snapshot (3°C). -/
def coldClearWeather : WeatherData :=
  { temperature := 3, condition := "Clear", humidity := 50, windSpeed := 10 }

/-- A mild, clear snapshot (20°C). -/
def mildClearWeather : WeatherData :=
  { temperature := 20, condition := "Clear", humidity := 50, windSpeed := 10 }

/-- Bottoms, top, shoes and a parka; ids 1-4. -/
def coldWardrobe : List ClothingItem :=
  [mkItem 1 "Jeans" "bottoms" ["blue"], mkItem 2 "Shirt" "tops" ["white"],
   mkItem 3 "Boots" "shoes" ["black"], mkItem 4 "Parka" "outerwear" ["green"]]

/-- Confidence-bounds predicate: absent, or within [0, 100]. -/
def confInRangeB (c : Option Int) : Bool :=
  match c with
  | none => true
  | some v => decide (0 ≤ v) && decide (v ≤ 100)

/-- A composer outfit pairing items 1 and 2. -/
def dupOutfit : RawOutfit :=
  { name := "Look", occasion := some "casual", item_ids := [1, 2],
    confidence := some 90, description := none, styling_tips := none, weather := none }

/-- A composer outfit whose base confidence 150 already exceeds 100. -/
def overconfidentOutfit : RawOutfit :=
  { name := "Bold Look", occasion := some "casual", item_ids := [1, 2],
    confidence := some 150, description := none, styling_tips := none, weather := none }

/-- The first outfit of the fallback generator's first run over `quadWardrobe`. -/
def basicQuadFirstOutfit : RawOutfit :=
  { name := "white Tee with blue Jeans", occasion := some "casual", item_ids := [1, 3],
    confidence := some 75, description := some "Classic combination of Tee and Jeans",
    styling_tips := some "Keep accessories simple for a clean look",
    weather := some "Suitable for most conditions" }

/-- The only outfit of the fallback generator's second run over `quadWardrobe`
(the first three pairings being recorded in the threaded history). -/
def basicQuadSecondCallOutfit : RawOutfit :=
  { name := "red Polo with tan Chinos", occasion := some "casual", item_ids := [2, 4],
    confidence := some 75, description := some "Classic combination of Polo and Chinos",
    styling_tips := some "Keep accessories simple for a clean look",
    weather := some "Suitable for most conditions" }

/-! Evaluation checks of the string model: JavaScript substring containment
and the string-order sort of the combination key. -/

example : strContains "winter coat x" "winter coat" = true := by decide
example : strContains "scarfy" "scarf" = true := by decide
example : comboKey [10, 2] = "10,2" := by decide
example : comboKey [2, 10] = "10,2" := by decide
example : comboKey [3, 1] = "1,3" := by decide

/-! ## Helper lemmas -/

/-- A category with a positive count is the category of some selected item. -/
theorem categoryCount_pos_mem {sel : List ClothingItem} {c : String}
    (h : 0 < categoryCount sel c) : c ∈ sel.map (fun item => item.category) := by
  unfold categoryCount at h
  obtain ⟨x, hx⟩ := List.exists_mem_of_length_pos h
  have hx2 := List.mem_filter.mp hx
  exact List.mem_map.mpr ⟨x, hx2.1, by simpa using hx2.2⟩

/-- The duplicate-cap check bounds every category's count (3 for accessories,
2 for shoes, 1 otherwise), also for categories absent from the selection. -/
theorem duplicateCapsOk_bound {sel : List ClothingItem}
    (h : duplicateCapsOk sel = true) (c : String) :
    categoryCount sel c ≤ if c = "accessories" then 3 else if c = "shoes" then 2 else 1 := by
  rcases Nat.eq_zero_or_pos (categoryCount sel c) with h0 | hpos
  · rw [h0]; split <;> (try split) <;> omega
  · have hmem := categoryCount_pos_mem hpos
    unfold duplicateCapsOk at h
    rw [List.all_eq_true] at h
    have hc := h c hmem
    by_cases h1 : c = "accessories"
    · simp [h1] at hc ⊢; exact hc
    · by_cases h2 : c = "shoes" <;> simp [h1, h2] at hc ⊢ <;> exact hc

/-- C1, counterexample. The flexible validator accepts a two-shoes outfit:
the set has no dress, no top, no bottom and only 2 items, so none of the
composition disjuncts of the claim hold, yet the validator returns `true`
(its `minimalOutfit` branch accepts any 2-item selection). -/
theorem validateOutfitCombination_accepts_two_shoes :
    validateOutfitCombination [1, 2] twoShoesWardrobe = true ∧
    categoryCount (selectedItemsOf [1, 2] twoShoesWardrobe) "dresses" = 0 ∧
    categoryCount (selectedItemsOf [1, 2] twoShoesWardrobe) "tops" = 0 ∧
    categoryCount (selectedItemsOf [1, 2] twoShoesWardrobe) "bottoms" = 0 ∧
    (selectedItemsOf [1, 2] twoShoesWardrobe).length = 2 := by decide

/-- C1, as amended. Every id list accepted by `validateOutfitCombination`
resolves to at least 2 items and respects every duplicate cap: at most 3
accessories, at most 2 shoes, at most 1 item of every other category. (The
claimed composition disjunction does not hold: the `minimalOutfit` branch
accepts any 2-item selection, see the counterexample.) -/
theorem validateOutfitCombination_caps_of_accepted (itemIds : List Nat)
    (userItems : List ClothingItem)
    (h : validateOutfitCombination itemIds userItems = true) :
    2 ≤ (selectedItemsOf itemIds userItems).length ∧
    categoryCount (selectedItemsOf itemIds userItems) "accessories" ≤ 3 ∧
    categoryCount (selectedItemsOf itemIds userItems) "shoes" ≤ 2 ∧
    ∀ c, c ≠ "accessories" → c ≠ "shoes" →
      categoryCount (selectedItemsOf itemIds userItems) c ≤ 1 := by
  unfold validateOutfitCombination at h
  simp only [Bool.and_eq_true, decide_eq_true_eq] at h
  obtain ⟨⟨⟨⟨⟨-, hlen⟩, hcaps⟩, -⟩, -⟩, -⟩ := h
  refine ⟨hlen, ?_, ?_, ?_⟩
  · simpa using duplicateCapsOk_bound hcaps "accessories"
  · simpa using duplicateCapsOk_bound hcaps "shoes"
  · intro c hc1 hc2
    have hb := duplicateCapsOk_bound hcaps c
    rw [if_neg hc1, if_neg hc2] at hb
    exact hb

/-- C1, witness: a top-and-bottom pair is accepted and satisfies the bounds. -/
theorem validateOutfitCombination_caps_of_accepted_witness :
    2 ≤ (selectedItemsOf [1, 2] topBottomWardrobe).length ∧
    categoryCount (selectedItemsOf [1, 2] topBottomWardrobe) "accessories" ≤ 3 :=
  ⟨(validateOutfitCombination_caps_of_accepted [1, 2] topBottomWardrobe (by decide)).1,
   (validateOutfitCombination_caps_of_accepted [1, 2] topBottomWardrobe (by decide)).2.1⟩

/-- C7, counterexample. The id 999 resolves to no item of the wardrobe, yet
`validateOutfitCombination` accepts the list: it silently ignores unresolved
ids instead of rejecting. -/
theorem validateOutfitCombination_accepts_unresolved_id :
    (∀ item ∈ topBottomWardrobe, item.id ≠ 999) ∧
    validateOutfitCombination [1, 2, 999] topBottomWardrobe = true := by decide

/-- C7, as amended. Rejection of unresolved ids happens not in the structural
validator but in the advanced pipeline's separate id-existence filter: a list
containing an id that no wardrobe item carries always fails that filter. -/
theorem advancedIdsValid_rejects_unresolved (itemIds : List Nat)
    (userItems : List ClothingItem) (i : Nat) (hmem : i ∈ itemIds)
    (hun : ∀ item ∈ userItems, item.id ≠ i) :
    advancedIdsValid itemIds userItems = false := by
  cases hall : advancedIdsValid itemIds userItems
  · rfl
  · exfalso
    unfold advancedIdsValid at hall
    rw [List.all_eq_true] at hall
    have h2 := hall i hmem
    rw [List.any_eq_true] at h2
    obtain ⟨item, hitem, hbeq⟩ := h2
    exact hun item hitem (by simpa using hbeq)

/-- C7, witness: the id-existence filter rejects the list with the phantom id 999. -/
theorem advancedIdsValid_rejects_unresolved_witness :
    advancedIdsValid [1, 2, 999] topBottomWardrobe = false :=
  advancedIdsValid_rejects_unresolved [1, 2, 999] topBottomWardrobe 999 (by decide) (by decide)

/-- C8, counterexample. An item whose analysis carries no
`weather_suitability` is defaulted to `['mild']` by `wardrobeAnalysis`, and at
3°C the weather filter then drops it (no `cold` tag), contradicting the claim
that such items are always retained. -/
theorem weatherSuitableItems_drops_untagged_in_cold :
    weatherSuitableItems (some coldClearWeather) [wardrobeAnalysisItem 1 none] = [] := by
  decide

/-! The filter in isolation does retain an item whose `weatherSuitability`
field is truly absent — the claim's kernel of truth; the pipeline never
produces such an item. -/

example :
    weatherSuitableItems (some coldClearWeather)
      [{ id := 1, weatherSuitability := none }] =
      [{ id := 1, weatherSuitability := none }] := by decide

/-- C8, as amended. An item with no `weather_suitability` in its analysis
reaches the filter tagged `['mild']`, so it is retained exactly on the
moderate range: temperatures in [5, 25] and a condition other than rain. -/
theorem weatherSuitableItems_keeps_untagged_in_mild (w : WeatherData) (n : Nat)
    (h5 : 5 ≤ w.temperature) (h25 : w.temperature ≤ 25)
    (hrain : strToLower w.condition ≠ "rainy") :
    weatherSuitableItems (some w) [wardrobeAnalysisItem n none] =
      [wardrobeAnalysisItem n none] := by
  have hA : ¬ (w.temperature < 5) := by omega
  have hB : ¬ (25 < w.temperature) := by omega
  have hC : (strToLower w.condition == "rainy") = false := by simpa using hrain
  simp [weatherSuitableItems, wardrobeAnalysisItem, analyzedWeatherSuitability,
    weatherItemKept, hA, hB, hC]

/-- C8, witness: at 20°C and clear sky the untagged item is retained. -/
theorem weatherSuitableItems_keeps_untagged_in_mild_witness :
    weatherSuitableItems (some mildClearWeather) [wardrobeAnalysisItem 7 none] =
      [wardrobeAnalysisItem 7 none] :=
  weatherSuitableItems_keeps_untagged_in_mild mildClearWeather 7
    (by decide) (by decide) (by decide)

/-- C9, counterexample. A wardrobe holding a single dress has fewer than 2
usable items, yet the fallback generator returns one (single-dress) outfit,
not the empty list the claim requires. -/
theorem generateBasicOutfitCombinations_lone_dress_nonempty :
    loneDressWardrobe.length < 2 ∧
    (generateBasicOutfitCombinations loneDressWardrobe [] none).1.length = 1 := by decide

/-- C9, as amended. The fallback generator is a total function (it never
raises), and it returns an empty list for every wardrobe with fewer than 2
items **none of which is a dress**: a lone dress still produces one outfit. -/
theorem generateBasicOutfitCombinations_small_no_dress_empty (items : List ClothingItem)
    (hist : List String) (occ : Option String) (hlen : items.length < 2)
    (hnod : ∀ item ∈ items, item.category ≠ "dresses") :
    (generateBasicOutfitCombinations items hist occ).1 = [] := by
  rcases items with _ | ⟨x, _ | ⟨y, tl⟩⟩
  · simp [generateBasicOutfitCombinations, processPairs, processDresses]
  · have hx : (x.category == "dresses") = false := by
      simpa using hnod x (by simp)
    by_cases ht : x.category = "tops"
    · have hb : (x.category == "bottoms") = false := by simp [ht]
      simp [generateBasicOutfitCombinations, ht, hb, hx, processPairs, processDresses]
    · have ht2 : (x.category == "tops") = false := by simpa using ht
      simp [generateBasicOutfitCombinations, ht2, hx, processPairs, processDresses]
  · exfalso
    simp only [List.length_cons] at hlen
    omega

/-- C9, witness: a wardrobe with one top (and no dress) yields no outfits. -/
theorem generateBasicOutfitCombinations_small_no_dress_empty_witness :
    (generateBasicOutfitCombinations [mkItem 1 "White Tee" "tops" ["white"]] [] none).1 = [] :=
  generateBasicOutfitCombinations_small_no_dress_empty
    [mkItem 1 "White Tee" "tops" ["white"]] [] none (by decide) (by decide)

/-- C5, counterexample. With 2 tops x 2 bottoms and an empty history the
fallback generator returns 3 outfits, not the 4 pairings the claim states:
the loop breaks as soon as 3 outfits accumulate and the result is sliced to 3. -/
theorem generateBasicOutfitCombinations_quad_capped_at_three :
    (generateBasicOutfitCombinations quadWardrobe [] none).1.length = 3 ∧
    (generateBasicOutfitCombinations quadWardrobe [] none).1.length ≠ 4 := by decide

/-- C5, as amended. For the fixed wardrobe of 2 tops (ids 1, 2) and 2 bottoms
(ids 3, 4) and an empty history, the generator returns exactly the FIRST
THREE top x bottom pairings in nested-iteration order, each with confidence
75; the fourth pairing is cut by the output cap of 3. -/
theorem generateBasicOutfitCombinations_quad_first_three :
    ((generateBasicOutfitCombinations quadWardrobe [] none).1.map
        (fun o => o.item_ids)) = [[1, 3], [1, 4], [2, 3]] ∧
    ((generateBasicOutfitCombinations quadWardrobe [] none).1.map
        (fun o => o.confidence)) = [some 75, some 75, some 75] := by decide

/-- C6. Below 14°C, whenever the wardrobe holds at least one outerwear item,
the mandatory validator accepts an id set only if the selection itself
contains an outerwear item. -/
theorem validateMandatoryOutfitStructure_cold_requires_outerwear
    (itemIds : List Nat) (userItems : List ClothingItem) (temperature : Int)
    (hTemp : temperature < 14)
    (hAvail : 0 < (userItems.filter (fun item => item.category == "outerwear")).length)
    (hAcc : validateMandatoryOutfitStructure itemIds userItems temperature = true) :
    0 < categoryCount (selectedItemsOf itemIds userItems) "outerwear" := by
  simp only [validateMandatoryOutfitStructure] at hAcc
  split at hAcc
  · simp at hAcc
  split at hAcc
  · simp at hAcc
  split at hAcc
  · simp at hAcc
  split at hAcc
  · simp at hAcc
  split at hAcc
  · simp at hAcc
  next h5 =>
    simp only [Bool.and_eq_true, decide_eq_true_eq, beq_iff_eq] at h5
    push_neg at h5
    have hne := h5 ⟨hTemp, hAvail⟩
    omega

/-- C6, witness: at 3°C with a parka in the wardrobe, the accepted set
[1, 2, 3, 4] indeed contains outerwear. -/
theorem validateMandatoryOutfitStructure_cold_requires_outerwear_witness :
    0 < categoryCount (selectedItemsOf [1, 2, 3, 4] coldWardrobe) "outerwear" :=
  validateMandatoryOutfitStructure_cold_requires_outerwear [1, 2, 3, 4] coldWardrobe 3
    (by decide) (by decide) (by decide)

/-! ## C10: the sliding-window rate limiter -/

/-- Invariant of a call sequence: running the limiter from a state whose
`requests` array holds exactly the granted times still inside the window of
the previous call time, every 60000 ms window keeps at most 14 grants. -/
theorem rlRun_counts (ts : List Nat) :
    ∀ (g : List Nat) (prev : Nat),
      List.Chain' (fun x y => x ≤ y) (prev :: ts) →
      (∀ t ∈ g, t ≤ prev) →
      (∀ b, g.countP (fun t => decide (b ≤ t) && decide (t < b + rlTimeWindow)) ≤ rlMaxRequests) →
      ∀ a, ((ts.foldl rlStep (g.filter (fun t => prev - t < rlTimeWindow), g)).2).countP
          (fun t => decide (a ≤ t) && decide (t < a + rlTimeWindow)) ≤ rlMaxRequests := by
  induction ts with
  | nil =>
    intro g prev hch hle hcnt a
    simpa using hcnt a
  | cons now rest ih =>
    intro g prev hch hle hcnt a
    have hpn : prev ≤ now := (List.chain'_cons'.mp hch).1 now rfl
    have hch2 : List.Chain' (fun x y => x ≤ y) (now :: rest) := (List.chain'_cons'.mp hch).2
    have hkept : (g.filter (fun t => prev - t < rlTimeWindow)).filter
        (fun t => now - t < rlTimeWindow) = g.filter (fun t => now - t < rlTimeWindow) := by
      rw [List.filter_filter]
      apply List.filter_congr
      intro t ht
      by_cases h : now - t < rlTimeWindow
      · have h2 : prev - t < rlTimeWindow := by omega
        simp [h, h2]
      · simp [h]
    rw [List.foldl_cons]
    by_cases hlen : (g.filter (fun t => now - t < rlTimeWindow)).length < rlMaxRequests
    · have hstep : rlStep (g.filter (fun t => prev - t < rlTimeWindow), g) now =
          (g.filter (fun t => now - t < rlTimeWindow) ++ [now], g ++ [now]) := by
        simp [rlStep, canMakeRequest, hkept, hlen]
      rw [hstep]
      have hstate : g.filter (fun t => now - t < rlTimeWindow) ++ [now] =
          (g ++ [now]).filter (fun t => now - t < rlTimeWindow) := by
        rw [List.filter_append]
        simp [rlTimeWindow]
      rw [hstate]
      refine ih (g ++ [now]) now hch2 ?_ ?_ a
      · intro t ht
        rcases List.mem_append.mp ht with h | h
        · exact le_trans (hle t h) hpn
        · simp at h; omega
      · intro b
        rw [List.countP_append]
        by_cases hwin : (decide (b ≤ now) && decide (now < b + rlTimeWindow)) = true
        · have h1 : ∀ t ∈ g, (decide (b ≤ t) && decide (t < b + rlTimeWindow)) = true →
              (decide (now - t < rlTimeWindow)) = true := by
            intro t ht hw
            simp only [Bool.and_eq_true, decide_eq_true_eq] at hw hwin ⊢
            omega
          have h2 : g.countP (fun t => decide (b ≤ t) && decide (t < b + rlTimeWindow)) ≤
              (g.filter (fun t => now - t < rlTimeWindow)).length := by
            calc g.countP (fun t => decide (b ≤ t) && decide (t < b + rlTimeWindow)) ≤
                g.countP (fun t => decide (now - t < rlTimeWindow)) :=
                  List.countP_mono_left h1
              _ = (g.filter (fun t => now - t < rlTimeWindow)).length :=
                  List.countP_eq_length_filter _ _
          have h3 : List.countP (fun t => decide (b ≤ t) && decide (t < b + rlTimeWindow)) [now] ≤ 1 := by
            simpa using List.countP_le_length
              (p := fun t => decide (b ≤ t) && decide (t < b + rlTimeWindow)) (l := [now])
          have : rlMaxRequests = 14 := rfl
          omega
        · have h0 : List.countP (fun t => decide (b ≤ t) && decide (t < b + rlTimeWindow)) [now] = 0 := by
            have hw2 : (decide (b ≤ now) && decide (now < b + rlTimeWindow)) = false :=
              Bool.eq_false_iff.mpr hwin
            simp [List.countP_cons, hw2]
          rw [h0]
          simpa using hcnt b
    · have hstep : rlStep (g.filter (fun t => prev - t < rlTimeWindow), g) now =
          (g.filter (fun t => now - t < rlTimeWindow), g) := by
        simp [rlStep, canMakeRequest, hkept, hlen]
      rw [hstep]
      exact ih g now hch2 (fun t ht => le_trans (hle t ht) hpn) hcnt a

/-- C10. For every sequence of calls of `RateLimiter.canMakeRequest` at
non-decreasing times, at most 14 calls are granted inside any 60000 ms
window: the limiter never grants a 15th request within one window. -/
theorem rateLimiter_sliding_window_bound (ts : List Nat)
    (hts : List.Chain' (fun x y => x ≤ y) ts) (a : Nat) :
    (grantedTimes ts).countP
      (fun t => decide (a ≤ t) && decide (t < a + rlTimeWindow)) ≤ rlMaxRequests := by
  have hch : List.Chain' (fun x y => x ≤ y) (0 :: ts) :=
    List.chain'_cons'.mpr ⟨fun y _ => Nat.zero_le y, hts⟩
  have h := rlRun_counts ts [] 0 hch (by simp) (by simp) a
  simpa [grantedTimes] using h

/-- C10, witness: fifteen calls at time 0; at most 14 grants land in the
window starting at 0 (indeed the fifteenth call is denied). -/
theorem rateLimiter_sliding_window_bound_witness :
    (grantedTimes [0, 0, 0, 0, 0, 0, 0, 0, 0, 0, 0, 0, 0, 0, 0]).countP
      (fun t => decide (0 ≤ t) && decide (t < 0 + rlTimeWindow)) ≤ rlMaxRequests :=
  rateLimiter_sliding_window_bound [0, 0, 0, 0, 0, 0, 0, 0, 0, 0, 0, 0, 0, 0, 0]
    (by simp [List.chain'_cons', List.head?]) 0

/-! ## C3: duplicate suppression across sequential fallback calls -/

/-- Inserting a key leaves it present. -/
theorem mem_addKey_self (hist : List String) (k : String) : k ∈ addKey hist k := by
  unfold addKey
  by_cases h : hist.contains k = true
  · rw [if_pos h]; simpa using h
  · rw [if_neg h]; exact List.mem_append.mpr (Or.inr (by simp))

/-- Inserting a key keeps every present key present. -/
theorem mem_addKey_of_mem {hist : List String} {j : String} (h : j ∈ hist) (k : String) :
    j ∈ addKey hist k := by
  unfold addKey
  by_cases hc : hist.contains k = true
  · rwa [if_pos hc]
  · rw [if_neg hc]; exact List.mem_append.mpr (Or.inl h)

/-- A key absent after insertion was absent before. -/
theorem not_mem_of_not_mem_addKey {hist : List String} {j k : String}
    (h : j ∉ addKey hist k) : j ∉ hist :=
  fun hj => h (mem_addKey_of_mem hj k)

/-- The pair loop only ever adds keys to the history. -/
theorem processPairs_hist_mono (occ : Option String)
    (pairs : List (ClothingItem × ClothingItem)) :
    ∀ (hist : List String) (acc : List RawOutfit) (k : String),
      k ∈ hist → k ∈ (processPairs occ pairs hist acc).2 := by
  induction pairs with
  | nil => intro hist acc k hk; simpa [processPairs] using hk
  | cons p rest ih =>
    intro hist acc k hk
    obtain ⟨top, bottom⟩ := p
    by_cases h3 : 3 ≤ acc.length
    · simpa [processPairs, if_pos h3] using hk
    · by_cases hc : hist.contains (comboKey [top.id, bottom.id]) = true
      · simp only [processPairs, if_neg h3, if_pos hc]
        exact ih hist acc k hk
      · simp only [processPairs, if_neg h3, if_neg hc]
        exact ih _ _ k (mem_addKey_of_mem hk _)

/-- Every outfit the pair loop emits beyond its accumulator carries a key that
is recorded in the final history and was NOT in the starting history. -/
theorem processPairs_new_keys (occ : Option String)
    (pairs : List (ClothingItem × ClothingItem)) :
    ∀ (hist : List String) (acc : List RawOutfit) (o : RawOutfit),
      o ∈ (processPairs occ pairs hist acc).1 →
      o ∈ acc ∨ (comboKey o.item_ids ∈ (processPairs occ pairs hist acc).2 ∧
        comboKey o.item_ids ∉ hist) := by
  induction pairs with
  | nil =>
    intro hist acc o ho
    simp only [processPairs] at ho
    exact Or.inl ho
  | cons p rest ih =>
    intro hist acc o ho
    obtain ⟨top, bottom⟩ := p
    by_cases h3 : 3 ≤ acc.length
    · simp only [processPairs, if_pos h3] at ho
      exact Or.inl ho
    · by_cases hc : hist.contains (comboKey [top.id, bottom.id]) = true
      · simp only [processPairs, if_neg h3, if_pos hc] at ho ⊢
        exact ih hist acc o ho
      · simp only [processPairs, if_neg h3, if_neg hc] at ho ⊢
        rcases ih _ _ o ho with h | h
        · rcases List.mem_append.mp h with ha | hb
          · exact Or.inl ha
          · right
            have hob : o.item_ids = [top.id, bottom.id] := by
              simp at hb; rw [hb]
            rw [hob]
            constructor
            · exact processPairs_hist_mono occ rest _ _ _ (mem_addKey_self hist _)
            · simpa using hc
        · right
          exact ⟨h.1, not_mem_of_not_mem_addKey h.2⟩

/-- The dress loop only ever adds keys to the history. -/
theorem processDresses_hist_mono (dresses : List ClothingItem) :
    ∀ (hist : List String) (acc : List RawOutfit) (k : String),
      k ∈ hist → k ∈ (processDresses dresses hist acc).2 := by
  induction dresses with
  | nil => intro hist acc k hk; simpa [processDresses] using hk
  | cons dress rest ih =>
    intro hist acc k hk
    by_cases hc : hist.contains (comboKey [dress.id]) = true
    · simp only [processDresses, if_pos hc]
      exact ih hist acc k hk
    · simp only [processDresses, if_neg hc]
      exact ih _ _ k (mem_addKey_of_mem hk _)

/-- Every outfit the dress loop emits beyond its accumulator carries a key
recorded in the final history and absent from the starting history. -/
theorem processDresses_new_keys (dresses : List ClothingItem) :
    ∀ (hist : List String) (acc : List RawOutfit) (o : RawOutfit),
      o ∈ (processDresses dresses hist acc).1 →
      o ∈ acc ∨ (comboKey o.item_ids ∈ (processDresses dresses hist acc).2 ∧
        comboKey o.item_ids ∉ hist) := by
  induction dresses with
  | nil =>
    intro hist acc o ho
    simp only [processDresses] at ho
    exact Or.inl ho
  | cons dress rest ih =>
    intro hist acc o ho
    by_cases hc : hist.contains (comboKey [dress.id]) = true
    · simp only [processDresses, if_pos hc] at ho ⊢
      exact ih hist acc o ho
    · simp only [processDresses, if_neg hc] at ho ⊢
      rcases ih _ _ o ho with h | h
      · rcases List.mem_append.mp h with ha | hb
        · exact Or.inl ha
        · right
          have hob : o.item_ids = [dress.id] := by
            simp at hb; rw [hb]
          rw [hob]
          constructor
          · exact processDresses_hist_mono rest _ _ _ (mem_addKey_self hist _)
          · simpa using hc
      · right
        exact ⟨h.1, not_mem_of_not_mem_addKey h.2⟩

/-- The fallback generator records the key of every outfit it returns in the
history it hands back, and never returns an outfit whose key was already in
the history it was given. -/
theorem generateBasicOutfitCombinations_out_keys (items : List ClothingItem)
    (hist : List String) (occ : Option String) :
    ∀ o ∈ (generateBasicOutfitCombinations items hist occ).1,
      comboKey o.item_ids ∈ (generateBasicOutfitCombinations items hist occ).2 ∧
      comboKey o.item_ids ∉ hist := by
  intro o ho
  simp only [generateBasicOutfitCombinations] at ho ⊢
  have ho2 := List.mem_of_mem_take ho
  rcases processDresses_new_keys _ _ _ o ho2 with h | h
  · rcases processPairs_new_keys _ _ _ _ o h with h2 | h2
    · simp at h2
    · exact ⟨processDresses_hist_mono _ _ _ _ h2.1, h2.2⟩
  · refine ⟨h.1, fun hk => h.2 ?_⟩
    exact processPairs_hist_mono _ _ _ _ _ hk

/-- C3, as amended. When the history really is threaded from one call into
the next (as `generateOutfitSuggestions` does for its own fallbacks), two
sequential runs of the fallback generator over the same wardrobe never return
the same id combination: every key of the first call's output is recorded
before the second call starts. The advanced generator does NOT thread the
history (see the counterexample). -/
theorem generateBasicOutfitCombinations_no_repeat_across_calls
    (items : List ClothingItem) (occ : Option String) (h0 : List String)
    (o1 o2 : RawOutfit)
    (h1 : o1 ∈ (generateBasicOutfitCombinations items h0 occ).1)
    (h2 : o2 ∈ (generateBasicOutfitCombinations items
        (generateBasicOutfitCombinations items h0 occ).2 occ).1) :
    comboKey o1.item_ids ≠ comboKey o2.item_ids := by
  intro heq
  have k1 := (generateBasicOutfitCombinations_out_keys items h0 occ o1 h1).1
  have k2 := (generateBasicOutfitCombinations_out_keys items _ occ o2 h2).2
  rw [heq] at k1
  exact k2 k1

/-- C3, counterexample. The advanced generator's rate-limited path passes a
fresh empty set instead of the per-owner history, so two sequential calls
over the same wardrobe return the very same combination `1,2` twice. -/
theorem advancedRateLimitedCall_repeats_combination :
    ((advancedRateLimitedCall topBottomWardrobe none []).1.map
        (fun o => comboKey o.item_ids)) = ["1,2"] ∧
    ((advancedRateLimitedCall topBottomWardrobe none
        (advancedRateLimitedCall topBottomWardrobe none []).2).1.map
        (fun o => comboKey o.item_ids)) = ["1,2"] := by decide

/-- C3, witness: over `quadWardrobe` with threaded history, the second call's
outfit (pairing 2,4) differs from the first call's first outfit (pairing 1,3). -/
theorem generateBasicOutfitCombinations_no_repeat_across_calls_witness :
    comboKey basicQuadFirstOutfit.item_ids ≠ comboKey basicQuadSecondCallOutfit.item_ids :=
  generateBasicOutfitCombinations_no_repeat_across_calls quadWardrobe none []
    basicQuadFirstOutfit basicQuadSecondCallOutfit (by decide) (by decide)

/-! ## C2 and C4: the batch pipeline -/

/-- Cold-layer adjustment only touches confidence and styling tips. -/
theorem coldLayerAdjust_item_ids (sel : List ClothingItem) (t : Int) (o : RawOutfit) :
    (coldLayerAdjust sel t o).item_ids = o.item_ids := by
  unfold coldLayerAdjust
  split
  · split <;> rfl
  · rfl

/-- Weather-appropriateness adjustment only touches confidence. -/
theorem weatherAppropriatenessAdjust_item_ids (sel : List ClothingItem) (w : WeatherData)
    (o : RawOutfit) : (weatherAppropriatenessAdjust sel w o).item_ids = o.item_ids := by
  unfold weatherAppropriatenessAdjust
  split <;> rfl

/-- Favourite-colour adjustment only touches confidence. -/
theorem favColorAdjust_item_ids (sel : List ClothingItem) (p : StylePreferences)
    (o : RawOutfit) : (favColorAdjust sel p o).item_ids = o.item_ids := by
  unfold favColorAdjust
  split
  · rfl
  · dsimp only
    split <;> rfl

/-- Avoided-colour adjustment only touches confidence. -/
theorem avoidColorAdjust_item_ids (sel : List ClothingItem) (p : StylePreferences)
    (o : RawOutfit) : (avoidColorAdjust sel p o).item_ids = o.item_ids := by
  unfold avoidColorAdjust
  split
  · rfl
  · dsimp only
    split <;> rfl

/-- Preference adjustments only touch confidence. -/
theorem preferencesAdjust_item_ids (sel : List ClothingItem) (prefs : Option StylePreferences)
    (o : RawOutfit) : (preferencesAdjust sel prefs o).item_ids = o.item_ids := by
  unfold preferencesAdjust
  cases prefs with
  | none => rfl
  | some p =>
    show (avoidColorAdjust sel p (favColorAdjust sel p o)).item_ids = o.item_ids
    rw [avoidColorAdjust_item_ids, favColorAdjust_item_ids]

/-- Scoring never changes the id list of an outfit. -/
theorem scoreOutfit_item_ids (sel : List ClothingItem) (w : Option WeatherData)
    (p : Option StylePreferences) (o : RawOutfit) :
    (scoreOutfit sel w p o).item_ids = o.item_ids := by
  unfold scoreOutfit
  cases w with
  | none => exact preferencesAdjust_item_ids _ _ _
  | some wd =>
    show (preferencesAdjust sel p (weatherAppropriatenessAdjust sel wd
        (coldLayerAdjust sel wd.temperature o))).item_ids = o.item_ids
    rw [preferencesAdjust_item_ids, weatherAppropriatenessAdjust_item_ids,
      coldLayerAdjust_item_ids]

/-- Cold-layer adjustment commutes with renaming. -/
theorem coldLayerAdjust_rename (sel : List ClothingItem) (t : Int) (o : RawOutfit) (n : String) :
    coldLayerAdjust sel t { o with name := n } = { coldLayerAdjust sel t o with name := n } := by
  unfold coldLayerAdjust
  split
  · split <;> rfl
  · rfl

/-- Weather-appropriateness adjustment commutes with renaming. -/
theorem weatherAppropriatenessAdjust_rename (sel : List ClothingItem) (w : WeatherData)
    (o : RawOutfit) (n : String) :
    weatherAppropriatenessAdjust sel w { o with name := n } =
      { weatherAppropriatenessAdjust sel w o with name := n } := by
  unfold weatherAppropriatenessAdjust
  split <;> rfl

/-- Favourite-colour adjustment commutes with renaming. -/
theorem favColorAdjust_rename (sel : List ClothingItem) (p : StylePreferences)
    (o : RawOutfit) (n : String) :
    favColorAdjust sel p { o with name := n } = { favColorAdjust sel p o with name := n } := by
  unfold favColorAdjust
  split
  · rfl
  · dsimp only
    split <;> rfl

/-- Avoided-colour adjustment commutes with renaming. -/
theorem avoidColorAdjust_rename (sel : List ClothingItem) (p : StylePreferences)
    (o : RawOutfit) (n : String) :
    avoidColorAdjust sel p { o with name := n } = { avoidColorAdjust sel p o with name := n } := by
  unfold avoidColorAdjust
  split
  · rfl
  · dsimp only
    split <;> rfl

/-- Preference adjustments commute with renaming. -/
theorem preferencesAdjust_rename (sel : List ClothingItem) (prefs : Option StylePreferences)
    (o : RawOutfit) (n : String) :
    preferencesAdjust sel prefs { o with name := n } =
      { preferencesAdjust sel prefs o with name := n } := by
  unfold preferencesAdjust
  cases prefs with
  | none => rfl
  | some p =>
    show avoidColorAdjust sel p (favColorAdjust sel p { o with name := n }) =
      { avoidColorAdjust sel p (favColorAdjust sel p o) with name := n }
    rw [favColorAdjust_rename, avoidColorAdjust_rename]

/-- Scoring commutes with renaming: the name feeds none of the adjustments. -/
theorem scoreOutfit_rename (sel : List ClothingItem) (w : Option WeatherData)
    (p : Option StylePreferences) (o : RawOutfit) (n : String) :
    scoreOutfit sel w p { o with name := n } = { scoreOutfit sel w p o with name := n } := by
  unfold scoreOutfit
  cases w with
  | none => exact preferencesAdjust_rename _ _ _ _
  | some wd =>
    show preferencesAdjust sel p (weatherAppropriatenessAdjust sel wd
        (coldLayerAdjust sel wd.temperature { o with name := n })) =
      { preferencesAdjust sel p (weatherAppropriatenessAdjust sel wd
          (coldLayerAdjust sel wd.temperature o)) with name := n }
    rw [coldLayerAdjust_rename, weatherAppropriatenessAdjust_rename, preferencesAdjust_rename]

/-- A within-range (or absent) confidence read through `|| 80` lies in [0, 100]. -/
theorem jsNumOr_bounds {c : Option Int} (h : confInRangeB c = true) :
    0 ≤ jsNumOr c 80 ∧ jsNumOr c 80 ≤ 100 := by
  cases c with
  | none => simp [jsNumOr]
  | some v =>
    simp only [confInRangeB, Bool.and_eq_true, decide_eq_true_eq] at h
    by_cases hv : (v == 0) = true
    · simp [jsNumOr, hv]
    · simp only [jsNumOr, hv, if_false, Bool.false_eq_true]
      exact h

/-- Closing the range predicate over a concrete value. -/
theorem confInRangeB_some {v : Int} (h1 : 0 ≤ v) (h2 : v ≤ 100) :
    confInRangeB (some v) = true := by
  simp only [confInRangeB, Bool.and_eq_true, decide_eq_true_eq]
  exact ⟨h1, h2⟩

/-- Cold-layer adjustment keeps an in-range confidence in range. -/
theorem coldLayerAdjust_conf (sel : List ClothingItem) (t : Int) (o : RawOutfit)
    (h : confInRangeB o.confidence = true) :
    confInRangeB (coldLayerAdjust sel t o).confidence = true := by
  obtain ⟨h1, h2⟩ := jsNumOr_bounds h
  unfold coldLayerAdjust
  split
  · split
    · exact confInRangeB_some (by omega) (by omega)
    · exact confInRangeB_some (by omega) (by omega)
  · exact h

/-- Weather-appropriateness adjustment keeps an in-range confidence in range. -/
theorem weatherAppropriatenessAdjust_conf (sel : List ClothingItem) (w : WeatherData)
    (o : RawOutfit) (h : confInRangeB o.confidence = true) :
    confInRangeB (weatherAppropriatenessAdjust sel w o).confidence = true := by
  obtain ⟨h1, h2⟩ := jsNumOr_bounds h
  unfold weatherAppropriatenessAdjust
  split
  · exact confInRangeB_some (by omega) (by omega)
  · exact confInRangeB_some (by omega) (by omega)

/-- Favourite-colour adjustment keeps an in-range confidence in range. -/
theorem favColorAdjust_conf (sel : List ClothingItem) (p : StylePreferences)
    (o : RawOutfit) (h : confInRangeB o.confidence = true) :
    confInRangeB (favColorAdjust sel p o).confidence = true := by
  obtain ⟨h1, h2⟩ := jsNumOr_bounds h
  unfold favColorAdjust
  split
  · exact h
  · dsimp only
    split
    · exact confInRangeB_some (by omega) (by omega)
    · exact h

/-- Avoided-colour adjustment keeps an in-range confidence in range. -/
theorem avoidColorAdjust_conf (sel : List ClothingItem) (p : StylePreferences)
    (o : RawOutfit) (h : confInRangeB o.confidence = true) :
    confInRangeB (avoidColorAdjust sel p o).confidence = true := by
  obtain ⟨h1, h2⟩ := jsNumOr_bounds h
  unfold avoidColorAdjust
  split
  · exact h
  · dsimp only
    split
    · exact confInRangeB_some (by omega) (by omega)
    · exact h

/-- Preference adjustments keep an in-range confidence in range. -/
theorem preferencesAdjust_conf (sel : List ClothingItem) (prefs : Option StylePreferences)
    (o : RawOutfit) (h : confInRangeB o.confidence = true) :
    confInRangeB (preferencesAdjust sel prefs o).confidence = true := by
  unfold preferencesAdjust
  cases prefs with
  | none => exact h
  | some p => exact avoidColorAdjust_conf _ _ _ (favColorAdjust_conf _ _ _ h)

/-- Scoring keeps an in-range (or absent) base confidence within [0, 100]. -/
theorem scoreOutfit_conf (sel : List ClothingItem) (w : Option WeatherData)
    (p : Option StylePreferences) (o : RawOutfit)
    (h : confInRangeB o.confidence = true) :
    confInRangeB (scoreOutfit sel w p o).confidence = true := by
  unfold scoreOutfit
  cases w with
  | none => exact preferencesAdjust_conf _ _ _ h
  | some wd =>
    exact preferencesAdjust_conf _ _ _
      (weatherAppropriatenessAdjust_conf _ _ _ (coldLayerAdjust_conf _ _ _ h))

/-- Every outfit the map pass emits is the scored version of an input outfit:
same id list, and a confidence obtained by scoring that input. -/
theorem mapPhase_out_spec (u : List ClothingItem) (w : Option WeatherData)
    (p : Option StylePreferences) (r : Nat) :
    ∀ (os : List RawOutfit) (hist used : List String),
      ∀ o2 ∈ (mapPhase u w p r os hist used).1,
        ∃ o ∈ os, o2.item_ids = o.item_ids ∧
          o2.confidence = (scoreOutfit (selectedItemsOf o.item_ids u) w p o).confidence := by
  intro os
  induction os with
  | nil =>
    intro hist used o2 h2
    simp [mapPhase] at h2
  | cons o rest ih =>
    intro hist used o2 h2
    cases hn : used.contains o.name with
    | true =>
      simp only [mapPhase, hn, ite_true] at h2
      rcases List.mem_cons.mp h2 with he | hrest
      · refine ⟨o, List.mem_cons_self o rest, ?_, ?_⟩
        · rw [he, scoreOutfit_rename]
          exact scoreOutfit_item_ids _ _ _ _
        · rw [he, scoreOutfit_rename]
      · obtain ⟨o3, ho3, hh⟩ := ih _ _ o2 hrest
        exact ⟨o3, List.mem_cons_of_mem _ ho3, hh⟩
    | false =>
      simp only [mapPhase, hn, Bool.false_eq_true, ite_false] at h2
      rcases List.mem_cons.mp h2 with he | hrest
      · refine ⟨o, List.mem_cons_self o rest, ?_, ?_⟩
        · rw [he]
          exact scoreOutfit_item_ids _ _ _ _
        · rw [he]
      · obtain ⟨o3, ho3, hh⟩ := ih _ _ o2 hrest
        exact ⟨o3, List.mem_cons_of_mem _ ho3, hh⟩

/-- Membership through descending insertion. -/
theorem mem_insertByConfDesc {x y : RawOutfit} {l : List RawOutfit} :
    y ∈ insertByConfDesc x l ↔ y = x ∨ y ∈ l := by
  induction l with
  | nil => simp [insertByConfDesc]
  | cons z zs ih =>
    unfold insertByConfDesc
    split
    · simp [List.mem_cons]
    · simp only [List.mem_cons, ih]
      tauto

/-- The stable confidence sort permutes its input: membership is preserved. -/
theorem mem_sortByConfDesc {y : RawOutfit} {l : List RawOutfit} :
    y ∈ sortByConfDesc l ↔ y ∈ l := by
  suffices h : ∀ acc, (y ∈ l.foldl (fun a x => insertByConfDesc x a) acc ↔ y ∈ acc ∨ y ∈ l) by
    simpa [sortByConfDesc] using h []
  induction l with
  | nil => intro acc; simp
  | cons z zs ih =>
    intro acc
    simp only [List.foldl_cons]
    rw [ih (insertByConfDesc z acc)]
    simp only [mem_insertByConfDesc, List.mem_cons]
    tauto

/-- C4, counterexample. The composer hands the batch a confidence of 150;
with no weather snapshot and no preferences not one adjustment fires, so the
pipeline returns the candidate with confidence 150, outside [0, 100]. -/
theorem processSuggestionBatch_confidence_unclamped :
    ((processSuggestionBatch [overconfidentOutfit] topBottomWardrobe [] none none 0).1.map
      (fun o => o.confidence)) = [some 150] := by decide

/-- C4, as amended. The scorer only preserves the bounds rather than
enforcing them: whenever every composer-supplied base confidence is absent or
already within [0, 100], every candidate the batch pipeline returns has its
confidence absent or within [0, 100]. -/
theorem processSuggestionBatch_conf_range (outfits : List RawOutfit)
    (userItems : List ClothingItem) (hist0 : List String) (w : Option WeatherData)
    (p : Option StylePreferences) (r : Nat)
    (h : ∀ o ∈ outfits, confInRangeB o.confidence = true) :
    ∀ o2 ∈ (processSuggestionBatch outfits userItems hist0 w p r).1,
      confInRangeB o2.confidence = true := by
  intro o2 h2
  simp only [processSuggestionBatch] at h2
  have h3 := List.mem_of_mem_take h2
  rw [mem_sortByConfDesc] at h3
  obtain ⟨o, ho, _, hconf⟩ := mapPhase_out_spec _ _ _ _ _ _ _ o2 h3
  have ho2 : o ∈ outfits := (List.mem_filter.mp ho).1
  rw [hconf]
  exact scoreOutfit_conf _ _ _ _ (h o ho2)

/-- C4, witness: a well-formed 90-confidence candidate keeps an in-range
confidence through the pipeline. -/
theorem processSuggestionBatch_conf_range_witness :
    confInRangeB dupOutfit.confidence = true :=
  processSuggestionBatch_conf_range [dupOutfit] topBottomWardrobe [] none none 0
    (by decide) dupOutfit (by decide)

/-- C2, counterexample. The composer proposes the same item combination
twice in one batch: the filter pass checks both against the pre-batch history
(finding neither), combinations are only recorded in the later map pass, so
BOTH copies of the `1,2` combination are returned in one batch. -/
theorem processSuggestionBatch_duplicate_pair_in_batch :
    ((processSuggestionBatch [dupOutfit, dupOutfit] topBottomWardrobe [] none none 0).1.map
      (fun o => comboKey o.item_ids)) = ["1,2", "1,2"] := by decide

/-- C2, as amended. What the batch dedup actually guarantees: no returned
candidate's sorted id key was in the owner's history as of the start of the
call. Uniqueness WITHIN a batch fails when the composer repeats itself (see
the counterexample), because the filter pass finishes before the map pass
records any key. -/
theorem processSuggestionBatch_no_repeat_from_history (outfits : List RawOutfit)
    (userItems : List ClothingItem) (hist0 : List String) (w : Option WeatherData)
    (p : Option StylePreferences) (r : Nat) :
    ∀ o2 ∈ (processSuggestionBatch outfits userItems hist0 w p r).1,
      comboKey o2.item_ids ∉ hist0 := by
  intro o2 h2
  simp only [processSuggestionBatch] at h2
  have h3 := List.mem_of_mem_take h2
  rw [mem_sortByConfDesc] at h3
  obtain ⟨o, ho, hids, _⟩ := mapPhase_out_spec _ _ _ _ _ _ _ o2 h3
  have hf := (List.mem_filter.mp ho).2
  simp only [passesBatchFilter, Bool.and_eq_true, Bool.not_eq_true'] at hf
  rw [hids]
  simpa using hf.1.2

/-- C2, witness: with history `["9"]`, the returned candidate's key `1,2` is
not in that history. -/
theorem processSuggestionBatch_no_repeat_from_history_witness :
    comboKey dupOutfit.item_ids ∉ (["9"] : List String) :=
  processSuggestionBatch_no_repeat_from_history [dupOutfit] topBottomWardrobe ["9"]
    none none 0 dupOutfit (by decide)
